import Mathlib

/-!
Verification of the numeric core of `theory-sandbox-render`:
the generic pixel buffer `Film<T>` (src/film/film.rs) and the
homogeneous 4x4 matrix `Matrix4` (src/math/matrix4.rs).

Floating-point (`f32`) arithmetic is embedded as exact rational
arithmetic (ℚ) for the pixel-buffer claims and as real arithmetic (ℝ)
for the matrix claims (which involve `cos`, `sin` and `sqrt`); where a
claim is specifically about non-finite IEEE values (infinity, NaN) a
small value type `FVal` with explicit `posInf`/`negInf`/`nan`
constructors models the classification of an `f32` division result.
-/

namespace TSR

/-! ## Film (src/film/film.rs) -/

/-- `Film<T>`: row-major pixel buffer.  `data` is the sample vector,
index `i = y*width + x`. -/
structure Film (α : Type) where
  data : List α
  width : Nat
  height : Nat

/-- `Film::new(fill, width, height)`: `data: vec![fill; height * width]`. -/
def Film.new (fill : α) (width height : Nat) : Film α :=
  { data := List.replicate (height * width) fill, width := width, height := height }

/-- `Film::get(x, y)`: `&self.data[y * self.width + x]`.  Rust indexing
panics out of range; the panic is modelled as `none`. -/
def Film.get (f : Film α) (x y : Nat) : Option α :=
  f.data.get? (y * f.width + x)

/-- Classification of an `f32` arithmetic result: a finite value (kept
exact as a rational), a signed infinity, or NaN. -/
inductive FVal where
  | finite (q : ℚ)
  | posInf
  | negInf
  | nan
deriving DecidableEq, Repr

/-- IEEE-754 division of two nonnegative finite values, as used by
`Film::aspect`: `0/0 = NaN`, `x/0 = +inf` for `x > 0`, otherwise the
exact quotient (rounding ignored; only finiteness classification is at
stake in the claims). -/
def fdiv (a b : ℚ) : FVal :=
  if b = 0 then (if a = 0 then FVal.nan else FVal.posInf) else FVal.finite (a / b)

/-- `Film::aspect()`: `self.width as f32 / self.height as f32`. -/
def Film.aspect (f : Film α) : FVal :=
  fdiv (f.width : ℚ) (f.height : ℚ)

/-- `Film::uv()`: returns the closure
`|index| { let x = index % w; let y = h - index / w - 1; ((x + su)/w, (y + sv)/h) }`
where `su`, `sv` are two fresh uniform samples in `[0,1)` drawn from the
thread-local RNG.  The RNG draw is modelled by passing the two jitter
values `su sv` as explicit arguments.  Subtraction in `h - index / w - 1`
is `usize` subtraction, modelled by truncated `Nat` subtraction. -/
def Film.uv (f : Film α) : Nat → ℚ → ℚ → ℚ × ℚ :=
  let w := f.width
  let h := f.height
  fun index su sv =>
    let x := index % w
    let y := h - index / w - 1
    (((x : ℚ) + su) / (w : ℚ), ((y : ℚ) + sv) / (h : ℚ))

/-- Modelled from the spec: the 3-component floating vector sample type
(`Vector3` of src/math/vector3.rs, not part of the provided sources) as
used by `Validate for Film<Vector3>`; each component is an `f32`
classified by `FVal`. -/
structure V3F where
  x : FVal
  y : FVal
  z : FVal
deriving DecidableEq, Repr

/-- Modelled from the spec: `Vector3::is_nan` — some component of the
sample is NaN ("no value is NaN"). -/
def V3F.is_nan (v : V3F) : Bool :=
  v.x = FVal.nan || v.y = FVal.nan || v.z = FVal.nan

/-- Modelled from the spec: `Vector3::is_infinite` — some component of
the sample is infinite ("no value is infinite"). -/
def V3F.is_infinite (v : V3F) : Bool :=
  (v.x = FVal.posInf || v.x = FVal.negInf) ||
  (v.y = FVal.posInf || v.y = FVal.negInf) ||
  (v.z = FVal.posInf || v.z = FVal.negInf)

/-- `Validate for Film<Vector3>`: two `debug_assert!`s, one that no
stored sample `is_nan`, one that none `is_infinite`.  `debug_assert!`
is compiled in only when debug assertions are enabled; the build
configuration is the explicit flag `dbg`.  Result `true` means the call
returns normally, `false` means an assertion failure halts execution. -/
def Film.validate (dbg : Bool) (f : Film V3F) : Bool :=
  !dbg || (f.data.all (fun v => !v.is_nan) && f.data.all (fun v => !v.is_infinite))

/-! ## Matrix4 (src/math/matrix4.rs) -/

/- The matrix component is embedded over ℝ because `axis_angle`,
`length` and `normalize` use `cos`, `sin` and `sqrt`; these real
functions carry no executable code, so this section is noncomputable.
All pixel-buffer definitions above remain fully executable. -/
noncomputable section

/-- Modelled from the spec: the 3-component vector type `Vector3`
(src/math/vector3.rs, not part of the provided sources), over ℝ. -/
structure Vector3 where
  x : ℝ
  y : ℝ
  z : ℝ

/-- Modelled from the spec: component-wise vector subtraction. -/
def Vector3.sub (a b : Vector3) : Vector3 :=
  ⟨a.x - b.x, a.y - b.y, a.z - b.z⟩

/-- Modelled from the spec: component-wise vector negation. -/
def Vector3.neg (a : Vector3) : Vector3 :=
  ⟨-a.x, -a.y, -a.z⟩

/-- Modelled from the spec: euclidean dot product of 3-vectors. -/
def Vector3.dot (a b : Vector3) : ℝ :=
  a.x * b.x + a.y * b.y + a.z * b.z

/-- Modelled from the spec: the right-handed cross product (`up × z`). -/
def Vector3.cross (a b : Vector3) : Vector3 :=
  ⟨a.y * b.z - a.z * b.y, a.z * b.x - a.x * b.z, a.x * b.y - a.y * b.x⟩

/-- Modelled from the spec: euclidean length. -/
def Vector3.length (a : Vector3) : ℝ :=
  Real.sqrt (a.dot a)

/-- Modelled from the spec: `normalize` divides a vector by its length
(no zero-length guard: a degenerate input is a caller error). -/
def Vector3.normalize (a : Vector3) : Vector3 :=
  ⟨a.x / a.length, a.y / a.length, a.z / a.length⟩

/-- Modelled from the spec: the 4-component vector type `Vector4`. -/
structure Vector4 where
  x : ℝ
  y : ℝ
  z : ℝ
  w : ℝ

/-- Modelled from the spec: euclidean dot product of 4-vectors. -/
def Vector4.dot (a b : Vector4) : ℝ :=
  a.x * b.x + a.y * b.y + a.z * b.z + a.w * b.w

/-- Modelled from the spec: lift of a 3-vector to homogeneous
coordinates with `w = 1` (`From<Vector3> for Vector4`). -/
def Vector3.toHomo (a : Vector3) : Vector4 :=
  ⟨a.x, a.y, a.z, 1⟩

/-- Modelled from the spec: projection of a 4-vector back to 3
components by dropping `w`, no perspective divide
(`From<Vector4> for Vector3`). -/
def Vector4.dropW (a : Vector4) : Vector3 :=
  ⟨a.x, a.y, a.z⟩

/-- `Matrix4 { v: [f32; 4 * 4] }`: sixteen values in row-major order. -/
structure Matrix4 where
  v : Fin 16 → ℝ

/-- `Matrix4::new(array)` with the sixteen row-major entries spelled
out.  The chain of `if`s on the numeric index mirrors array literal
indexing. -/
def Matrix4.of16 (a0 a1 a2 a3 a4 a5 a6 a7 a8 a9 a10 a11 a12 a13 a14 a15 : ℝ) : Matrix4 :=
  ⟨fun i =>
    if i.val = 0 then a0 else if i.val = 1 then a1 else
    if i.val = 2 then a2 else if i.val = 3 then a3 else
    if i.val = 4 then a4 else if i.val = 5 then a5 else
    if i.val = 6 then a6 else if i.val = 7 then a7 else
    if i.val = 8 then a8 else if i.val = 9 then a9 else
    if i.val = 10 then a10 else if i.val = 11 then a11 else
    if i.val = 12 then a12 else if i.val = 13 then a13 else
    if i.val = 14 then a14 else a15⟩

/-- Row-major flat index: row `y`, column `x` lives at `y * 4 + x`. -/
def m4ix (y x : Fin 4) : Fin 16 :=
  ⟨y.val * 4 + x.val, by omega⟩

/-- `Matrix4::unit()`. -/
def Matrix4.unit : Matrix4 :=
  Matrix4.of16 1 0 0 0 0 1 0 0 0 0 1 0 0 0 0 1

/-- `Matrix4::translate(v)`. -/
def Matrix4.translate (v : Vector3) : Matrix4 :=
  Matrix4.of16 1 0 0 v.x 0 1 0 v.y 0 0 1 v.z 0 0 0 1

/-- `Matrix4::scale(v)`. -/
def Matrix4.scale (v : Vector3) : Matrix4 :=
  Matrix4.of16 v.x 0 0 0 0 v.y 0 0 0 0 v.z 0 0 0 0 1

/-- `Matrix4::axis_angle(a, t)`: Rodrigues' rotation formula expanded
per element, exactly as in the source. -/
def Matrix4.axis_angle (a : Vector3) (t : ℝ) : Matrix4 :=
  let c := Real.cos t
  let s := Real.sin t
  Matrix4.of16
    (c + a.x * a.x * (1 - c)) (a.x * a.y * (1 - c) - a.z * s) (a.x * a.z * (1 - c) + a.y * s) 0
    (a.y * a.x * (1 - c) + a.z * s) (c + a.y * a.y * (1 - c)) (a.y * a.z * (1 - c) - a.x * s) 0
    (a.z * a.x * (1 - c) - a.y * s) (a.z * a.y * (1 - c) + a.x * s) (c + a.z * a.z * (1 - c)) 0
    0 0 0 1

/-- `Zero for Matrix4`. -/
def Matrix4.zero : Matrix4 :=
  ⟨fun _ => 0⟩

/-- `From<[Vector3; 3]> for Matrix4`: the three vectors become the
first three columns, last row and column `[0,0,0,1]`. -/
def Matrix4.ofBasis (b0 b1 b2 : Vector3) : Matrix4 :=
  Matrix4.of16
    b0.x b1.x b2.x 0
    b0.y b1.y b2.y 0
    b0.z b1.z b2.z 0
    0 0 0 1

/-- `Mul for &Matrix4`: `out[i] = Σ_j self[y*4+j] * rhs[j*4+x]` with
`x = i % 4`, `y = i / 4`. -/
def Matrix4.mul (m rhs : Matrix4) : Matrix4 :=
  ⟨fun i =>
    ∑ j : Fin 4,
      m.v ⟨(i.val / 4) * 4 + j.val, by omega⟩ * rhs.v ⟨j.val * 4 + i.val % 4, by omega⟩⟩

/-- `Matrix4::transpose()`: `out[i] = self[x*4 + y]` with `x = i % 4`,
`y = i / 4` — a pure permutation of storage, no arithmetic. -/
def Matrix4.transpose (m : Matrix4) : Matrix4 :=
  ⟨fun i => m.v ⟨(i.val % 4) * 4 + i.val / 4, by omega⟩⟩

/-- `Matrix4::map_col(f)`: applies `f` to each of the four rows
(`Vector4::new(v[i*4+0], v[i*4+1], v[i*4+2], v[i*4+3])`). -/
def Matrix4.map_col (m : Matrix4) (f : Vector4 → ℝ) : Vector4 :=
  ⟨f ⟨m.v ⟨0, by omega⟩, m.v ⟨1, by omega⟩, m.v ⟨2, by omega⟩, m.v ⟨3, by omega⟩⟩,
   f ⟨m.v ⟨4, by omega⟩, m.v ⟨5, by omega⟩, m.v ⟨6, by omega⟩, m.v ⟨7, by omega⟩⟩,
   f ⟨m.v ⟨8, by omega⟩, m.v ⟨9, by omega⟩, m.v ⟨10, by omega⟩, m.v ⟨11, by omega⟩⟩,
   f ⟨m.v ⟨12, by omega⟩, m.v ⟨13, by omega⟩, m.v ⟨14, by omega⟩, m.v ⟨15, by omega⟩⟩⟩

/-- `Mul<Vector3> for &Matrix4`: lift to homogeneous, dot each row,
drop `w`. -/
def Matrix4.mulVec (m : Matrix4) (rhs : Vector3) : Vector3 :=
  (m.map_col (fun row => row.dot rhs.toHomo)).dropW

/-- `Matrix4::look_at(origin, target, up)`. -/
def Matrix4.look_at (origin target up : Vector3) : Matrix4 :=
  let za := (Vector3.sub target origin).normalize.neg
  let xa := (up.cross za).normalize
  let ya := za.cross xa
  (Matrix4.translate origin).mul (Matrix4.ofBasis xa ya za)

/-- Component `i` of a 3-vector. -/
def vcomp (a : Vector3) (i : Fin 3) : ℝ :=
  if i.val = 0 then a.x else if i.val = 1 then a.y else a.z

/-- Entry `(i, j)` of the cross-product matrix `[a]ₓ =
[[0, -a.z, a.y], [a.z, 0, -a.x], [-a.y, a.x, 0]]`. -/
def crossEntry (a : Vector3) (i j : Fin 3) : ℝ :=
  if i.val = 0 then (if j.val = 1 then -a.z else if j.val = 2 then a.y else 0)
  else if i.val = 1 then (if j.val = 0 then a.z else if j.val = 2 then -a.x else 0)
  else (if j.val = 0 then -a.y else if j.val = 1 then a.x else 0)

/-- The per-element Rodrigues expansion from the spec:
entry `(i, j)` of `I*cos(t) + (1-cos(t))*(a ⊗ a) + sin(t)*[a]ₓ`. -/
def rodrigues (a : Vector3) (t : ℝ) (i j : Fin 3) : ℝ :=
  Real.cos t * (if i = j then 1 else 0)
    + (1 - Real.cos t) * (vcomp a i * vcomp a j)
    + Real.sin t * crossEntry a i j

end

/-! ## Theorems -/

/-- Two matrices with the same sixteen entries are equal. -/
theorem Matrix4.ext_v {m1 m2 : Matrix4} (h : ∀ i, m1.v i = m2.v i) : m1 = m2 := by
  cases m1
  cases m2
  congr
  funext i
  exact h i

/-! Evaluation helpers: the value of a `Fin` literal and the sixteen
entries of an `of16` matrix, for rewriting without unfolding the
constructor. -/

theorem fin16_val0 : ((0 : Fin 16) : Nat) = 0 := rfl
theorem fin16_val1 : ((1 : Fin 16) : Nat) = 1 := rfl
theorem fin16_val2 : ((2 : Fin 16) : Nat) = 2 := rfl
theorem fin16_val3 : ((3 : Fin 16) : Nat) = 3 := rfl
theorem fin16_val4 : ((4 : Fin 16) : Nat) = 4 := rfl
theorem fin16_val5 : ((5 : Fin 16) : Nat) = 5 := rfl
theorem fin16_val6 : ((6 : Fin 16) : Nat) = 6 := rfl
theorem fin16_val7 : ((7 : Fin 16) : Nat) = 7 := rfl
theorem fin16_val8 : ((8 : Fin 16) : Nat) = 8 := rfl
theorem fin16_val9 : ((9 : Fin 16) : Nat) = 9 := rfl
theorem fin16_val10 : ((10 : Fin 16) : Nat) = 10 := rfl
theorem fin16_val11 : ((11 : Fin 16) : Nat) = 11 := rfl
theorem fin16_val12 : ((12 : Fin 16) : Nat) = 12 := rfl
theorem fin16_val13 : ((13 : Fin 16) : Nat) = 13 := rfl
theorem fin16_val14 : ((14 : Fin 16) : Nat) = 14 := rfl
theorem fin16_val15 : ((15 : Fin 16) : Nat) = 15 := rfl
theorem fin4_val0 : ((0 : Fin 4) : Nat) = 0 := rfl
theorem fin4_val1 : ((1 : Fin 4) : Nat) = 1 := rfl
theorem fin4_val2 : ((2 : Fin 4) : Nat) = 2 := rfl
theorem fin4_val3 : ((3 : Fin 4) : Nat) = 3 := rfl
theorem fin3_val0 : ((0 : Fin 3) : Nat) = 0 := rfl
theorem fin3_val1 : ((1 : Fin 3) : Nat) = 1 := rfl
theorem fin3_val2 : ((2 : Fin 3) : Nat) = 2 := rfl

theorem of16_v0 (a0 a1 a2 a3 a4 a5 a6 a7 a8 a9 a10 a11 a12 a13 a14 a15 : ℝ) (h : 0 < 16) :
    (Matrix4.of16 a0 a1 a2 a3 a4 a5 a6 a7 a8 a9 a10 a11 a12 a13 a14 a15).v ⟨0, h⟩ = a0 := rfl
theorem of16_c0 (a0 a1 a2 a3 a4 a5 a6 a7 a8 a9 a10 a11 a12 a13 a14 a15 : ℝ) :
    (Matrix4.of16 a0 a1 a2 a3 a4 a5 a6 a7 a8 a9 a10 a11 a12 a13 a14 a15).v (0 : Fin 16) = a0 := rfl
theorem of16_v1 (a0 a1 a2 a3 a4 a5 a6 a7 a8 a9 a10 a11 a12 a13 a14 a15 : ℝ) (h : 1 < 16) :
    (Matrix4.of16 a0 a1 a2 a3 a4 a5 a6 a7 a8 a9 a10 a11 a12 a13 a14 a15).v ⟨1, h⟩ = a1 := rfl
theorem of16_c1 (a0 a1 a2 a3 a4 a5 a6 a7 a8 a9 a10 a11 a12 a13 a14 a15 : ℝ) :
    (Matrix4.of16 a0 a1 a2 a3 a4 a5 a6 a7 a8 a9 a10 a11 a12 a13 a14 a15).v (1 : Fin 16) = a1 := rfl
theorem of16_v2 (a0 a1 a2 a3 a4 a5 a6 a7 a8 a9 a10 a11 a12 a13 a14 a15 : ℝ) (h : 2 < 16) :
    (Matrix4.of16 a0 a1 a2 a3 a4 a5 a6 a7 a8 a9 a10 a11 a12 a13 a14 a15).v ⟨2, h⟩ = a2 := rfl
theorem of16_c2 (a0 a1 a2 a3 a4 a5 a6 a7 a8 a9 a10 a11 a12 a13 a14 a15 : ℝ) :
    (Matrix4.of16 a0 a1 a2 a3 a4 a5 a6 a7 a8 a9 a10 a11 a12 a13 a14 a15).v (2 : Fin 16) = a2 := rfl
theorem of16_v3 (a0 a1 a2 a3 a4 a5 a6 a7 a8 a9 a10 a11 a12 a13 a14 a15 : ℝ) (h : 3 < 16) :
    (Matrix4.of16 a0 a1 a2 a3 a4 a5 a6 a7 a8 a9 a10 a11 a12 a13 a14 a15).v ⟨3, h⟩ = a3 := rfl
theorem of16_c3 (a0 a1 a2 a3 a4 a5 a6 a7 a8 a9 a10 a11 a12 a13 a14 a15 : ℝ) :
    (Matrix4.of16 a0 a1 a2 a3 a4 a5 a6 a7 a8 a9 a10 a11 a12 a13 a14 a15).v (3 : Fin 16) = a3 := rfl
theorem of16_v4 (a0 a1 a2 a3 a4 a5 a6 a7 a8 a9 a10 a11 a12 a13 a14 a15 : ℝ) (h : 4 < 16) :
    (Matrix4.of16 a0 a1 a2 a3 a4 a5 a6 a7 a8 a9 a10 a11 a12 a13 a14 a15).v ⟨4, h⟩ = a4 := rfl
theorem of16_c4 (a0 a1 a2 a3 a4 a5 a6 a7 a8 a9 a10 a11 a12 a13 a14 a15 : ℝ) :
    (Matrix4.of16 a0 a1 a2 a3 a4 a5 a6 a7 a8 a9 a10 a11 a12 a13 a14 a15).v (4 : Fin 16) = a4 := rfl
theorem of16_v5 (a0 a1 a2 a3 a4 a5 a6 a7 a8 a9 a10 a11 a12 a13 a14 a15 : ℝ) (h : 5 < 16) :
    (Matrix4.of16 a0 a1 a2 a3 a4 a5 a6 a7 a8 a9 a10 a11 a12 a13 a14 a15).v ⟨5, h⟩ = a5 := rfl
theorem of16_c5 (a0 a1 a2 a3 a4 a5 a6 a7 a8 a9 a10 a11 a12 a13 a14 a15 : ℝ) :
    (Matrix4.of16 a0 a1 a2 a3 a4 a5 a6 a7 a8 a9 a10 a11 a12 a13 a14 a15).v (5 : Fin 16) = a5 := rfl
theorem of16_v6 (a0 a1 a2 a3 a4 a5 a6 a7 a8 a9 a10 a11 a12 a13 a14 a15 : ℝ) (h : 6 < 16) :
    (Matrix4.of16 a0 a1 a2 a3 a4 a5 a6 a7 a8 a9 a10 a11 a12 a13 a14 a15).v ⟨6, h⟩ = a6 := rfl
theorem of16_c6 (a0 a1 a2 a3 a4 a5 a6 a7 a8 a9 a10 a11 a12 a13 a14 a15 : ℝ) :
    (Matrix4.of16 a0 a1 a2 a3 a4 a5 a6 a7 a8 a9 a10 a11 a12 a13 a14 a15).v (6 : Fin 16) = a6 := rfl
theorem of16_v7 (a0 a1 a2 a3 a4 a5 a6 a7 a8 a9 a10 a11 a12 a13 a14 a15 : ℝ) (h : 7 < 16) :
    (Matrix4.of16 a0 a1 a2 a3 a4 a5 a6 a7 a8 a9 a10 a11 a12 a13 a14 a15).v ⟨7, h⟩ = a7 := rfl
theorem of16_c7 (a0 a1 a2 a3 a4 a5 a6 a7 a8 a9 a10 a11 a12 a13 a14 a15 : ℝ) :
    (Matrix4.of16 a0 a1 a2 a3 a4 a5 a6 a7 a8 a9 a10 a11 a12 a13 a14 a15).v (7 : Fin 16) = a7 := rfl
theorem of16_v8 (a0 a1 a2 a3 a4 a5 a6 a7 a8 a9 a10 a11 a12 a13 a14 a15 : ℝ) (h : 8 < 16) :
    (Matrix4.of16 a0 a1 a2 a3 a4 a5 a6 a7 a8 a9 a10 a11 a12 a13 a14 a15).v ⟨8, h⟩ = a8 := rfl
theorem of16_c8 (a0 a1 a2 a3 a4 a5 a6 a7 a8 a9 a10 a11 a12 a13 a14 a15 : ℝ) :
    (Matrix4.of16 a0 a1 a2 a3 a4 a5 a6 a7 a8 a9 a10 a11 a12 a13 a14 a15).v (8 : Fin 16) = a8 := rfl
theorem of16_v9 (a0 a1 a2 a3 a4 a5 a6 a7 a8 a9 a10 a11 a12 a13 a14 a15 : ℝ) (h : 9 < 16) :
    (Matrix4.of16 a0 a1 a2 a3 a4 a5 a6 a7 a8 a9 a10 a11 a12 a13 a14 a15).v ⟨9, h⟩ = a9 := rfl
theorem of16_c9 (a0 a1 a2 a3 a4 a5 a6 a7 a8 a9 a10 a11 a12 a13 a14 a15 : ℝ) :
    (Matrix4.of16 a0 a1 a2 a3 a4 a5 a6 a7 a8 a9 a10 a11 a12 a13 a14 a15).v (9 : Fin 16) = a9 := rfl
theorem of16_v10 (a0 a1 a2 a3 a4 a5 a6 a7 a8 a9 a10 a11 a12 a13 a14 a15 : ℝ) (h : 10 < 16) :
    (Matrix4.of16 a0 a1 a2 a3 a4 a5 a6 a7 a8 a9 a10 a11 a12 a13 a14 a15).v ⟨10, h⟩ = a10 := rfl
theorem of16_c10 (a0 a1 a2 a3 a4 a5 a6 a7 a8 a9 a10 a11 a12 a13 a14 a15 : ℝ) :
    (Matrix4.of16 a0 a1 a2 a3 a4 a5 a6 a7 a8 a9 a10 a11 a12 a13 a14 a15).v (10 : Fin 16) = a10 := rfl
theorem of16_v11 (a0 a1 a2 a3 a4 a5 a6 a7 a8 a9 a10 a11 a12 a13 a14 a15 : ℝ) (h : 11 < 16) :
    (Matrix4.of16 a0 a1 a2 a3 a4 a5 a6 a7 a8 a9 a10 a11 a12 a13 a14 a15).v ⟨11, h⟩ = a11 := rfl
theorem of16_c11 (a0 a1 a2 a3 a4 a5 a6 a7 a8 a9 a10 a11 a12 a13 a14 a15 : ℝ) :
    (Matrix4.of16 a0 a1 a2 a3 a4 a5 a6 a7 a8 a9 a10 a11 a12 a13 a14 a15).v (11 : Fin 16) = a11 := rfl
theorem of16_v12 (a0 a1 a2 a3 a4 a5 a6 a7 a8 a9 a10 a11 a12 a13 a14 a15 : ℝ) (h : 12 < 16) :
    (Matrix4.of16 a0 a1 a2 a3 a4 a5 a6 a7 a8 a9 a10 a11 a12 a13 a14 a15).v ⟨12, h⟩ = a12 := rfl
theorem of16_c12 (a0 a1 a2 a3 a4 a5 a6 a7 a8 a9 a10 a11 a12 a13 a14 a15 : ℝ) :
    (Matrix4.of16 a0 a1 a2 a3 a4 a5 a6 a7 a8 a9 a10 a11 a12 a13 a14 a15).v (12 : Fin 16) = a12 := rfl
theorem of16_v13 (a0 a1 a2 a3 a4 a5 a6 a7 a8 a9 a10 a11 a12 a13 a14 a15 : ℝ) (h : 13 < 16) :
    (Matrix4.of16 a0 a1 a2 a3 a4 a5 a6 a7 a8 a9 a10 a11 a12 a13 a14 a15).v ⟨13, h⟩ = a13 := rfl
theorem of16_c13 (a0 a1 a2 a3 a4 a5 a6 a7 a8 a9 a10 a11 a12 a13 a14 a15 : ℝ) :
    (Matrix4.of16 a0 a1 a2 a3 a4 a5 a6 a7 a8 a9 a10 a11 a12 a13 a14 a15).v (13 : Fin 16) = a13 := rfl
theorem of16_v14 (a0 a1 a2 a3 a4 a5 a6 a7 a8 a9 a10 a11 a12 a13 a14 a15 : ℝ) (h : 14 < 16) :
    (Matrix4.of16 a0 a1 a2 a3 a4 a5 a6 a7 a8 a9 a10 a11 a12 a13 a14 a15).v ⟨14, h⟩ = a14 := rfl
theorem of16_c14 (a0 a1 a2 a3 a4 a5 a6 a7 a8 a9 a10 a11 a12 a13 a14 a15 : ℝ) :
    (Matrix4.of16 a0 a1 a2 a3 a4 a5 a6 a7 a8 a9 a10 a11 a12 a13 a14 a15).v (14 : Fin 16) = a14 := rfl
theorem of16_v15 (a0 a1 a2 a3 a4 a5 a6 a7 a8 a9 a10 a11 a12 a13 a14 a15 : ℝ) (h : 15 < 16) :
    (Matrix4.of16 a0 a1 a2 a3 a4 a5 a6 a7 a8 a9 a10 a11 a12 a13 a14 a15).v ⟨15, h⟩ = a15 := rfl
theorem of16_c15 (a0 a1 a2 a3 a4 a5 a6 a7 a8 a9 a10 a11 a12 a13 a14 a15 : ℝ) :
    (Matrix4.of16 a0 a1 a2 a3 a4 a5 a6 a7 a8 a9 a10 a11 a12 a13 a14 a15).v (15 : Fin 16) = a15 := rfl

/-- C5: for every 4x4 matrix `M`, `transpose(transpose(M)) = M`
exactly, and `transpose(M)` holds at row `i`, column `j` the entry of
`M` at row `j`, column `i` — transpose only permutes storage. -/
theorem transpose_transpose_id (m : Matrix4) :
    m.transpose.transpose = m ∧
    ∀ i j : Fin 4, m.transpose.v (m4ix i j) = m.v (m4ix j i) := by
  constructor
  · apply Matrix4.ext_v
    intro i
    fin_cases i <;> rfl
  · intro i j
    fin_cases i <;> fin_cases j <;> rfl

/-- C7: for every unit-length axis `a`, `axis_angle(a, 0)` equals the
identity matrix `unit()` (`cos 0 = 1`, `sin 0 = 0`). -/
theorem axis_angle_zero_eq_unit (a : Vector3)
    (h : a.x * a.x + a.y * a.y + a.z * a.z = 1) :
    Matrix4.axis_angle a 0 = Matrix4.unit := by
  apply Matrix4.ext_v
  intro i
  fin_cases i <;>
    simp [Matrix4.axis_angle, Matrix4.unit, Matrix4.of16]

/-- Witness for C7 at the concrete unit axis `(1, 0, 0)`. -/
theorem axis_angle_zero_eq_unit_witness :
    (1 : ℝ) * 1 + 0 * 0 + 0 * 0 = 1 ∧
    Matrix4.axis_angle ⟨1, 0, 0⟩ 0 = Matrix4.unit :=
  ⟨by simp, axis_angle_zero_eq_unit ⟨1, 0, 0⟩ (by simp)⟩

/-- C8: for every 3-vector `v`, the matrix product
`translate(v) * translate(-v)` equals the identity matrix `unit()`
(exactly, in the real-number embedding of `f32`). -/
theorem translate_mul_translate_neg (w : Vector3) :
    (Matrix4.translate w).mul (Matrix4.translate w.neg) = Matrix4.unit := by
  apply Matrix4.ext_v
  intro i
  obtain ⟨iv, hiv⟩ := i
  interval_cases iv <;>
    norm_num [Matrix4.mul, Fin.sum_univ_four,
      fin16_val0, fin16_val1, fin16_val2, fin16_val3, fin16_val4, fin16_val5, fin16_val6, fin16_val7, fin16_val8, fin16_val9, fin16_val10, fin16_val11, fin16_val12, fin16_val13, fin16_val14, fin16_val15, fin4_val0, fin4_val1, fin4_val2, fin4_val3,
      of16_v0, of16_v1, of16_v2, of16_v3, of16_v4, of16_v5, of16_v6, of16_v7,
      of16_v8, of16_v9, of16_v10, of16_v11, of16_v12, of16_v13, of16_v14, of16_v15,
      of16_c0, of16_c1, of16_c2, of16_c3, of16_c4, of16_c5, of16_c6, of16_c7,
      of16_c8, of16_c9, of16_c10, of16_c11, of16_c12, of16_c13, of16_c14, of16_c15,
      Matrix4.translate, Matrix4.unit, Vector3.neg]

/-- C4: `axis_angle(a, t)` has upper-left 3x3 block equal, element for
element, to the Rodrigues expansion
`I*cos(t) + (1-cos(t))*(a ⊗ a) + sin(t)*[a]ₓ`, and fourth row and
fourth column `[0, 0, 0, 1]`. -/
theorem axis_angle_is_rodrigues (a : Vector3) (t : ℝ) :
    (∀ i j : Fin 3,
      (Matrix4.axis_angle a t).v ⟨i.val * 4 + j.val, by omega⟩ = rodrigues a t i j) ∧
    (Matrix4.axis_angle a t).v ⟨3, by omega⟩ = 0 ∧
    (Matrix4.axis_angle a t).v ⟨7, by omega⟩ = 0 ∧
    (Matrix4.axis_angle a t).v ⟨11, by omega⟩ = 0 ∧
    (Matrix4.axis_angle a t).v ⟨12, by omega⟩ = 0 ∧
    (Matrix4.axis_angle a t).v ⟨13, by omega⟩ = 0 ∧
    (Matrix4.axis_angle a t).v ⟨14, by omega⟩ = 0 ∧
    (Matrix4.axis_angle a t).v ⟨15, by omega⟩ = 1 := by
  refine ⟨?_, ?_, ?_, ?_, ?_, ?_, ?_, ?_⟩
  · intro i j
    obtain ⟨iv, hiv⟩ := i
    obtain ⟨jv, hjv⟩ := j
    interval_cases iv <;> interval_cases jv <;>
      · norm_num [Matrix4.axis_angle,
          of16_v0, of16_v1, of16_v2, of16_v3, of16_v4, of16_v5, of16_v6, of16_v7,
      of16_v8, of16_v9, of16_v10, of16_v11, of16_v12, of16_v13, of16_v14, of16_v15,
          of16_c0, of16_c1, of16_c2, of16_c3, of16_c4, of16_c5, of16_c6, of16_c7,
      of16_c8, of16_c9, of16_c10, of16_c11, of16_c12, of16_c13, of16_c14, of16_c15,
          rodrigues, vcomp, crossEntry, Fin.ext_iff, fin3_val0, fin3_val1,
          fin3_val2]
        try ring
  all_goals rfl

/-- C2: for positive `w`, `h` and fill value `fill`, `Film::new` makes
a buffer of exactly `w*h` elements, each equal to `fill`, and
`get(x, y)` returns `fill` for every `x < w`, `y < h` (`get` addresses
linear index `y*w + x` in row-major order). -/
theorem new_fill_length_get (fill : α) (w h : Nat) (hw : 0 < w) (hh : 0 < h) :
    (Film.new fill w h).data.length = w * h ∧
    (∀ a ∈ (Film.new fill w h).data, a = fill) ∧
    ∀ x y : Nat, x < w → y < h →
      (Film.new fill w h).get x y = (Film.new fill w h).data.get? (y * w + x) ∧
      (Film.new fill w h).get x y = some fill := by
  refine ⟨by simp [Film.new, Nat.mul_comm], ?_, ?_⟩
  · intro a ha
    exact List.eq_of_mem_replicate ha
  · intro x y hx hy
    have hlt : y * w + x < h * w := by
      have h1 : y * w + x < (y + 1) * w := by
        calc y * w + x < y * w + w := by omega
        _ = (y + 1) * w := by ring
      have h2 : (y + 1) * w ≤ h * w := Nat.mul_le_mul_right w (by omega)
      omega
    constructor
    · rfl
    · simp [Film.new, Film.get, List.get?_eq_getElem?, List.getElem?_replicate, hlt]

/-- Witness for C2: a 2x3 buffer filled with 5; `get(1, 2)` reads
linear index `2*2 + 1 = 5` and returns the fill value. -/
theorem new_fill_length_get_witness :
    (Film.new (5 : ℕ) 2 3).data.length = 2 * 3 ∧
    (Film.new (5 : ℕ) 2 3).get 1 2 = some 5 :=
  ⟨(new_fill_length_get 5 2 3 (by decide) (by decide)).1,
   ((new_fill_length_get 5 2 3 (by decide) (by decide)).2.2 1 2 (by decide) (by decide)).2⟩

/-- C9: `get(x, y)` fails (Rust: panics; here: `none`) exactly when the
linear index `y*w + x` reaches the buffer size `w*h`; a call with
`x ≥ w` whose linear index is still in range does not fail and aliases
the cell `((y*w+x) mod w, (y*w+x) div w)`, whose column differs from
`x`. -/
theorem get_none_iff_linear_oob (f : Film α)
    (hlen : f.data.length = f.height * f.width) (x y : Nat) :
    (f.get x y = none ↔ f.width * f.height ≤ y * f.width + x) ∧
    (f.width ≤ x → y * f.width + x < f.width * f.height →
      (f.get x y).isSome = true ∧
      f.get x y = f.get ((y * f.width + x) % f.width) ((y * f.width + x) / f.width) ∧
      (y * f.width + x) % f.width ≠ x) := by
  constructor
  · rw [Film.get, List.get?_eq_none, hlen, Nat.mul_comm]
  · intro hxw hlin
    have hw : 0 < f.width := by
      rcases Nat.eq_zero_or_pos f.width with h0 | h0
      · rw [h0] at hlin
        omega
      · exact h0
    have hmodlt : (y * f.width + x) % f.width < f.width := Nat.mod_lt _ hw
    have hidx : (y * f.width + x) / f.width * f.width + (y * f.width + x) % f.width
        = y * f.width + x := by
      rw [Nat.mul_comm ((y * f.width + x) / f.width) f.width]
      exact Nat.div_add_mod _ _
    have hc : f.width * f.height = f.height * f.width := Nat.mul_comm _ _
    refine ⟨?_, ?_, ?_⟩
    · rw [Film.get, List.get?_eq_getElem?, List.getElem?_eq_getElem (by omega)]
      rfl
    · rw [Film.get, Film.get, hidx]
    · omega

/-- Witness for C9: buffer `[0,1,2,3,4,5]` with width 3, height 2.
`get(4, 0)` (column 4 out of range, linear index 4 in range) succeeds,
`get(7, 0)` (linear index 7 out of range) fails. -/
theorem get_none_iff_linear_oob_witness :
    ((Film.mk [0, 1, 2, 3, 4, 5] 3 2 : Film ℕ).get 4 0).isSome = true ∧
    (Film.mk [0, 1, 2, 3, 4, 5] 3 2 : Film ℕ).get 7 0 = none :=
  ⟨((get_none_iff_linear_oob (Film.mk [0, 1, 2, 3, 4, 5] 3 2) (by decide) 4 0).2
      (by decide) (by decide)).1,
   (get_none_iff_linear_oob (Film.mk [0, 1, 2, 3, 4, 5] 3 2) (by decide) 7 0).1.mpr
      (by decide)⟩

/-- C10 counterexample: for width 0 and height 1 (a zero dimension),
`aspect()` is the finite value `0/1 = 0` — no division by zero occurs
and the result is neither an infinity nor NaN. -/
theorem new_zero_width_aspect_finite :
    ((0 : Nat) = 0 ∨ (1 : Nat) = 0) ∧
    (Film.new (0 : ℚ) 0 1).aspect = FVal.finite 0 ∧
    (Film.new (0 : ℚ) 0 1).aspect ≠ FVal.posInf ∧
    (Film.new (0 : ℚ) 0 1).aspect ≠ FVal.negInf ∧
    (Film.new (0 : ℚ) 0 1).aspect ≠ FVal.nan := by
  have haspect : (Film.new (0 : ℚ) 0 1).aspect = FVal.finite 0 := by
    norm_num [Film.new, Film.aspect, fdiv]
  refine ⟨Or.inl rfl, haspect, ?_, ?_, ?_⟩ <;> rw [haspect] <;> decide

/-- C10 (amended): `Film::new` is total over all dimensions including
zero: for `w = 0` or `h = 0` it returns a Film with `h*w = 0` data
elements whose `width` and `height` fields keep the values passed in.
`aspect()` divides by zero only when `h = 0`, yielding +infinity for
`w > 0` and NaN for `w = 0`; for `w = 0` with `h > 0` it is the finite
value 0. -/
theorem new_total_zero_dims (fill : α) (w h : Nat) (hzero : w = 0 ∨ h = 0) :
    (Film.new fill w h).data.length = h * w ∧
    (Film.new fill w h).data.length = 0 ∧
    (Film.new fill w h).width = w ∧
    (Film.new fill w h).height = h ∧
    (h = 0 → 0 < w → (Film.new fill w h).aspect = FVal.posInf) ∧
    (h = 0 → w = 0 → (Film.new fill w h).aspect = FVal.nan) ∧
    (0 < h → w = 0 → (Film.new fill w h).aspect = FVal.posInf → False) ∧
    (0 < h → w = 0 → (Film.new fill w h).aspect = FVal.finite 0) := by
  refine ⟨by simp [Film.new], ?_, rfl, rfl, ?_, ?_, ?_, ?_⟩
  · rcases hzero with h0 | h0 <;> simp [Film.new, h0]
  · intro h0 hwpos
    have hw' : w ≠ 0 := by omega
    simp [Film.new, Film.aspect, fdiv, h0, hw']
  · intro h0 hw0
    simp [Film.new, Film.aspect, fdiv, h0, hw0]
  · intro hhpos hw0 habs
    have hh' : h ≠ 0 := by omega
    rw [Film.aspect] at habs
    simp [Film.new, fdiv, hw0, hh'] at habs
  · intro hhpos hw0
    have hh' : h ≠ 0 := by omega
    simp [Film.new, Film.aspect, fdiv, hw0, hh']

/-- Witness for C10 at width 0, height 1. -/
theorem new_total_zero_dims_witness :
    (Film.new (7 : ℕ) 0 1).data.length = 0 ∧
    (Film.new (7 : ℕ) 0 1).aspect = FVal.finite 0 :=
  ⟨(new_total_zero_dims 7 0 1 (Or.inl rfl)).2.1,
   (new_total_zero_dims 7 0 1 (Or.inl rfl)).2.2.2.2.2.2.2 (by decide) rfl⟩

/-- C6: with debug assertions enabled, `validate()` halts (assertion
failure) whenever some stored sample has a NaN component or an
infinite component; with debug assertions disabled (release build) it
performs no check and never fails. -/
theorem validate_halts_on_bad_sample (f : Film V3F)
    (hbad : ∃ v ∈ f.data, v.is_nan = true ∨ v.is_infinite = true) :
    Film.validate true f = false ∧ ∀ g : Film V3F, Film.validate false g = true := by
  constructor
  · obtain ⟨v, hv, hb⟩ := hbad
    simp only [Film.validate, Bool.not_true, Bool.false_or, Bool.and_eq_false_iff]
    rcases hb with hb | hb
    · exact Or.inl (List.all_eq_false.mpr ⟨v, hv, by simp [hb]⟩)
    · exact Or.inr (List.all_eq_false.mpr ⟨v, hv, by simp [hb]⟩)
  · intro g
    simp [Film.validate]

/-- Witness for C6: a 1x1 film whose single sample has a NaN first
component halts validation in a debug build and passes in release. -/
theorem validate_halts_on_bad_sample_witness :
    Film.validate true (Film.mk [V3F.mk FVal.nan (FVal.finite 0) (FVal.finite 0)] 1 1) = false ∧
    Film.validate false (Film.mk [V3F.mk FVal.nan (FVal.finite 0) (FVal.finite 0)] 1 1) = true :=
  ⟨(validate_halts_on_bad_sample _ (by decide)).1,
   (validate_halts_on_bad_sample (Film.mk [V3F.mk FVal.nan (FVal.finite 0) (FVal.finite 0)] 1 1)
      (by decide)).2 _⟩

/-- C1: for a Film with `w > 0`, `h > 0` and a valid linear index
`i < w*h`, the coordinate generator `uv()` with jitter `su, sv ∈ [0,1)`
returns exactly `u = (x + su)/w` and `v = ((h - y - 1) + sv)/h` with
`x = i % w`, `y = i / w`; hence `u ∈ [x/w, (x+1)/w)` and
`v ∈ [(h-y-1)/h, (h-y)/h)` — the jitter never escapes the source
pixel's cell — and stored row 0 (`y = 0`) produces the highest `v`
band `[(h-1)/h, 1)`. -/
theorem uv_jitter_in_pixel_cell (f : Film α) (i : Nat) (su sv : ℚ)
    (hw : 0 < f.width) (hh : 0 < f.height) (hi : i < f.width * f.height)
    (hsu0 : 0 ≤ su) (hsu1 : su < 1) (hsv0 : 0 ≤ sv) (hsv1 : sv < 1) :
    f.uv i su sv =
      ((((i % f.width : Nat) : ℚ) + su) / (f.width : ℚ),
       (((f.height - i / f.width - 1 : Nat) : ℚ) + sv) / (f.height : ℚ)) ∧
    ((i % f.width : Nat) : ℚ) / (f.width : ℚ) ≤ (f.uv i su sv).1 ∧
    (f.uv i su sv).1 < (((i % f.width : Nat) : ℚ) + 1) / (f.width : ℚ) ∧
    ((f.height - i / f.width - 1 : Nat) : ℚ) / (f.height : ℚ) ≤ (f.uv i su sv).2 ∧
    (f.uv i su sv).2 < ((f.height - i / f.width : Nat) : ℚ) / (f.height : ℚ) ∧
    (i / f.width = 0 →
      ((f.height - 1 : Nat) : ℚ) / (f.height : ℚ) ≤ (f.uv i su sv).2 ∧
      (f.uv i su sv).2 < 1) := by
  have hwQ : (0 : ℚ) < (f.width : ℚ) := by exact_mod_cast hw
  have hhQ : (0 : ℚ) < (f.height : ℚ) := by exact_mod_cast hh
  have hylt : i / f.width < f.height :=
    (Nat.div_lt_iff_lt_mul hw).mpr (by rw [Nat.mul_comm]; exact hi)
  have hsucc : f.height - i / f.width = (f.height - i / f.width - 1) + 1 := by omega
  have hfst : (f.uv i su sv).1 = (((i % f.width : Nat) : ℚ) + su) / (f.width : ℚ) := rfl
  have hsnd :
      (f.uv i su sv).2 = (((f.height - i / f.width - 1 : Nat) : ℚ) + sv) / (f.height : ℚ) :=
    rfl
  refine ⟨rfl, ?_, ?_, ?_, ?_, ?_⟩
  · rw [hfst]
    exact (div_le_div_iff_of_pos_right hwQ).mpr (by linarith)
  · rw [hfst]
    exact (div_lt_div_iff_of_pos_right hwQ).mpr (by linarith)
  · rw [hsnd]
    exact (div_le_div_iff_of_pos_right hhQ).mpr (by linarith)
  · rw [hsnd, hsucc]
    push_cast
    exact (div_lt_div_iff_of_pos_right hhQ).mpr (by linarith)
  · intro hrow0
    have h1 : f.height - i / f.width - 1 = f.height - 1 := by omega
    constructor
    · rw [hsnd, h1]
      exact (div_le_div_iff_of_pos_right hhQ).mpr (by linarith)
    · rw [hsnd, h1]
      have hcast : ((f.height - 1 : Nat) : ℚ) + 1 = (f.height : ℚ) := by
        have : (f.height - 1) + 1 = f.height := by omega
        exact_mod_cast congrArg (Nat.cast : Nat → ℚ) this
      have : (((f.height - 1 : Nat) : ℚ) + sv) / (f.height : ℚ)
          < (((f.height - 1 : Nat) : ℚ) + 1) / (f.height : ℚ) :=
        (div_lt_div_iff_of_pos_right hhQ).mpr (by linarith)
      rw [hcast] at this
      calc (((f.height - 1 : Nat) : ℚ) + sv) / (f.height : ℚ)
          < (f.height : ℚ) / (f.height : ℚ) := this
        _ = 1 := div_self (ne_of_gt hhQ)

/-- Witness for C1: the spec's end-to-end example — a 4x2 buffer,
index 6 decomposes to `x = 2`, `y = 1`, flipped row `2-1-1 = 0`; with
zero jitter `uv` yields `u = 2/4 = 1/2`, `v = 0/2 = 0`. -/
theorem uv_jitter_in_pixel_cell_witness :
    (Film.new (0 : ℚ) 4 2).uv 6 0 0 = (1 / 2, 0) ∧
    ((6 % 4 : Nat) : ℚ) / ((4 : Nat) : ℚ) ≤ ((Film.new (0 : ℚ) 4 2).uv 6 0 0).1 :=
  ⟨by
    have h := (uv_jitter_in_pixel_cell (Film.new (0 : ℚ) 4 2) 6 0 0 (by decide)
      (by decide) (by decide) (by decide) (by decide) (by decide) (by decide)).1
    rw [h]
    norm_num [Film.new],
   (uv_jitter_in_pixel_cell (Film.new (0 : ℚ) 4 2) 6 0 0 (by decide) (by decide)
      (by decide) (by decide) (by decide) (by decide) (by decide)).2.1⟩

/-- C3 counterexample: `look_at((1,0,0), (0,0,0), (0,1,0))` applied to
the point `(1,0,0)` (the input origin `o`) does not return `o`: the
result is `(1, 0, -1)`.  The inputs satisfy the non-degeneracy
contract (`up` not parallel to `t - o`, `t` distinct from `o`). -/
theorem look_at_origin_not_fixed :
    (Matrix4.look_at ⟨1, 0, 0⟩ ⟨0, 0, 0⟩ ⟨0, 1, 0⟩).mulVec ⟨1, 0, 0⟩ ≠
      (⟨1, 0, 0⟩ : Vector3) := by
  intro hEq
  have hz := congrArg Vector3.z hEq
  norm_num [Matrix4.look_at, Matrix4.mulVec, Matrix4.map_col, Matrix4.mul,
      Vector4.dot, Vector3.toHomo, Vector4.dropW, Matrix4.translate,
      Matrix4.ofBasis, Vector3.sub, Vector3.neg, Vector3.cross,
      Vector3.normalize, Vector3.length, Vector3.dot, Real.sqrt_one,
      Fin.sum_univ_four,
      fin16_val0, fin16_val1, fin16_val2, fin16_val3, fin16_val4, fin16_val5, fin16_val6, fin16_val7, fin16_val8, fin16_val9, fin16_val10, fin16_val11, fin16_val12, fin16_val13, fin16_val14, fin16_val15, fin4_val0, fin4_val1, fin4_val2, fin4_val3,
      of16_v0, of16_v1, of16_v2, of16_v3, of16_v4, of16_v5, of16_v6, of16_v7,
      of16_v8, of16_v9, of16_v10, of16_v11, of16_v12, of16_v13, of16_v14, of16_v15,
      of16_c0, of16_c1, of16_c2, of16_c3, of16_c4, of16_c5, of16_c6, of16_c7,
      of16_c8, of16_c9, of16_c10, of16_c11, of16_c12, of16_c13, of16_c14, of16_c15] at hz

/-- C3 (amended): for every origin `o`, target `t` and up vector `up`,
the translation component of `look_at(o, t, up)` recovers the input
origin `o`: applying the matrix to the zero point returns `o`, and the
fourth-column entries of the top three rows equal `o.x`, `o.y`, `o.z`.
(Applying the matrix to the point `o` itself does not return `o` in
general.) -/
theorem look_at_translation_recovers_origin (o t up : Vector3) :
    (Matrix4.look_at o t up).mulVec ⟨0, 0, 0⟩ = o ∧
    (Matrix4.look_at o t up).v ⟨3, by omega⟩ = o.x ∧
    (Matrix4.look_at o t up).v ⟨7, by omega⟩ = o.y ∧
    (Matrix4.look_at o t up).v ⟨11, by omega⟩ = o.z := by
  obtain ⟨ox, oy, oz⟩ := o
  refine ⟨?_, ?_, ?_, ?_⟩ <;>
    norm_num [Matrix4.look_at, Matrix4.mulVec, Matrix4.map_col, Matrix4.mul,
      Vector4.dot, Vector3.toHomo, Vector4.dropW, Matrix4.translate,
      Matrix4.ofBasis, Fin.sum_univ_four, Vector3.mk.injEq,
      fin16_val0, fin16_val1, fin16_val2, fin16_val3, fin16_val4, fin16_val5, fin16_val6, fin16_val7, fin16_val8, fin16_val9, fin16_val10, fin16_val11, fin16_val12, fin16_val13, fin16_val14, fin16_val15, fin4_val0, fin4_val1, fin4_val2, fin4_val3,
      of16_v0, of16_v1, of16_v2, of16_v3, of16_v4, of16_v5, of16_v6, of16_v7,
      of16_v8, of16_v9, of16_v10, of16_v11, of16_v12, of16_v13, of16_v14, of16_v15,
      of16_c0, of16_c1, of16_c2, of16_c3, of16_c4, of16_c5, of16_c6, of16_c7,
      of16_c8, of16_c9, of16_c10, of16_c11, of16_c12, of16_c13, of16_c14, of16_c15]

end TSR
